import Mathlib

set_option maxRecDepth 40000

/-!
Shallow embedding of the Notion-to-Hugo/LaTeX sync program (`sync_notion.py`)
and proofs about its claims.

Python strings are modelled as Lean `String` values, with the handful of
Python string primitives used by the program (`split("\n")`, `strip()`,
`startswith`, slicing, `replace`, `"sep".join`) re-implemented over the
underlying character list so that every definition is executable and
kernel-computable.  `dict.get` defaulting over the Notion property bags is
modelled with `Option` fields.  Fallible or absent data is `Option`;
numbers are `Int`.
-/

/-! ## Python string primitives -/

/-- Python `s.split("\n")`: split a character list at every newline,
keeping empty segments (splitting the empty string yields one empty
segment, as in Python). -/
def splitNl : List Char → List (List Char)
  | [] => [[]]
  | c :: rest =>
    if c = '\n' then [] :: splitNl rest
    else
      match splitNl rest with
      | [] => [[c]]
      | l :: ls => (c :: l) :: ls

/-- Python `body_text.split("\n")` on a `String`. -/
def splitLines (s : String) : List String :=
  (splitNl s.data).map String.mk

/-- ASCII whitespace stripped by Python `str.strip()` (the program's lines
come from `split("\n")` of Notion plain text, so ASCII whitespace is what
occurs). -/
def isPyWs (c : Char) : Bool :=
  c = ' ' ∨ c = '\t' ∨ c = '\n' ∨ c = '\r' ∨ c = '\x0b' ∨ c = '\x0c'

/-- Python `line.strip()`. -/
def pyStrip (s : String) : String :=
  String.mk (((s.data.dropWhile isPyWs).reverse.dropWhile isPyWs).reverse)

/-- Character-list prefix test (`listPre pat l` iff `pat` is a prefix of `l`). -/
def listPre : List Char → List Char → Bool
  | [], _ => true
  | _ :: _, [] => false
  | a :: as, b :: bs => a = b && listPre as bs

/-- Python `s.startswith(pre)`. -/
def pyStartsWith (s pre : String) : Bool := listPre pre.data s.data

/-- Python slicing `s[n:]`. -/
def pyDrop (s : String) (n : Nat) : String := String.mk (s.data.drop n)

/-- Python `sep.join(parts)`. -/
def joinSep (sep : String) : List String → String
  | [] => ""
  | [s] => s
  | s :: rest => s ++ sep ++ joinSep sep rest

/-- Worker for Python `str.replace`: left-to-right, non-overlapping
replacement of `pat` by `rep`.  `fuel` is an upper bound on the number of
steps (each step consumes at least one character of the input when the
pattern is non-empty), which keeps the recursion structural and hence
kernel-computable. -/
def replaceFuel (pat rep : List Char) : Nat → List Char → List Char
  | _, [] => []
  | 0, l => l
  | fuel + 1, c :: rest =>
    if listPre pat (c :: rest) then rep ++ replaceFuel pat rep fuel ((c :: rest).drop pat.length)
    else c :: replaceFuel pat rep fuel rest

/-- Python `s.replace(pat, rep)` for a non-empty pattern (every pattern the
program replaces is non-empty; an empty pattern is returned unchanged). -/
def pyReplace (s pat rep : String) : String :=
  if pat.data.isEmpty then s
  else String.mk (replaceFuel pat.data rep.data s.data.length s.data)

/-- Python string comparison `a <= b`: lexicographic by code point. -/
def charsLe : List Char → List Char → Bool
  | [], _ => true
  | _ :: _, [] => false
  | a :: as, b :: bs => if a = b then charsLe as bs else decide (a < b)

/-! ## Property Normalizer (`get_text` … `get_email`)

A Notion property value is a per-type wrapper dictionary.  Absent keys /
`None` values are modelled as `none`; a whole property missing from the
page's property bag is `get_…` receiving `none`. -/

/-- One fragment of a `rich_text`/`title` array: `item.get("plain_text", "")`. -/
structure RichItem where
  plain_text : Option String := none
deriving DecidableEq

/-- The object stored under `"select"`: `sel.get("name", "")`. -/
structure SelectVal where
  name : Option String := none
deriving DecidableEq

/-- The object stored under `"date"`: `date.get("start", "")`. -/
structure DateVal where
  start : Option String := none
deriving DecidableEq

/-- A Notion property wrapper (only the keys the extractors read).  Each
field is `none` when the corresponding dictionary key is absent or holds
`None`. -/
structure NProp where
  rich_text : Option (List RichItem) := none
  title : Option (List RichItem) := none
  number : Option Int := none
  select : Option SelectVal := none
  checkbox : Option Bool := none
  url : Option String := none
  date : Option DateVal := none
  email : Option String := none
deriving DecidableEq

/-- Python `a or b` over an optional list: `a` when present and non-empty
(truthy), else `b`. -/
def pyOrList (a : Option (List RichItem)) (b : List RichItem) : List RichItem :=
  match a with
  | some l => if l.isEmpty then b else l
  | none => b

/-- `get_text`: concatenation of the `plain_text` fragments of
`prop.get("rich_text") or prop.get("title") or []`; `""` for a missing
property. -/
def get_text (prop : Option NProp) : String :=
  match prop with
  | none => ""
  | some p =>
    String.join ((pyOrList p.rich_text (pyOrList p.title [])).map
      (fun item => item.plain_text.getD ""))

/-- `get_number`: `prop.get("number")`, `None` for a missing property. -/
def get_number (prop : Option NProp) : Option Int :=
  match prop with
  | none => none
  | some p => p.number

/-- `get_select`: the selected option's name, `""` when missing. -/
def get_select (prop : Option NProp) : String :=
  match prop with
  | none => ""
  | some p =>
    match p.select with
    | some sel => sel.name.getD ""
    | none => ""

/-- `get_checkbox`: `prop.get("checkbox", False)`, `False` when missing. -/
def get_checkbox (prop : Option NProp) : Bool :=
  match prop with
  | none => false
  | some p => p.checkbox.getD false

/-- `get_url`: `prop.get("url", "") or ""`. -/
def get_url (prop : Option NProp) : String :=
  match prop with
  | none => ""
  | some p => p.url.getD ""

/-- `get_date`: `date.get("start", "")` of `prop.get("date")`; `""` when the
property or its inner date object is absent. -/
def get_date (prop : Option NProp) : String :=
  match prop with
  | none => ""
  | some p =>
    match p.date with
    | some d => d.start.getD ""
    | none => ""

/-- `get_email`: `prop.get("email", "") or ""`. -/
def get_email (prop : Option NProp) : String :=
  match prop with
  | none => ""
  | some p => p.email.getD ""

/-! ## Paginated Fetcher (`query_all`)

The remote store is modelled as the finite sequence of responses it
delivers to the successive cursor-following queries issued by the `while
has_more` loop of `query_all`; records are an arbitrary type `α`. -/

/-- One response of `notion.databases.query`. -/
structure QueryResponse (α : Type) where
  results : List α
  has_more : Bool
  next_cursor : Option String := none
deriving DecidableEq

/-- `query_all`: extend `results` with each page's records, continuing while
the response says `has_more` (the Lean model consumes the next delivered
response per iteration; an exhausted response list corresponds to a store
that never answers, where the Python loop would block on I/O). -/
def query_all {α : Type} : List (QueryResponse α) → List α
  | [] => []
  | r :: rest => r.results ++ (if r.has_more then query_all rest else [])

/-! ## Subtopic Extractor (`parse_body`) and intro extraction -/

/-- A subtopic of a project body: all four fields always present,
defaulting to `""`. -/
structure Subtopic where
  title : String
  image : String
  caption : String
  link : String
deriving DecidableEq

/-- Result of `parse_body`. -/
structure ParsedBody where
  media_highlights : String
  subtopics : List Subtopic
deriving DecidableEq

/-- The `for line in lines` loop of `parse_body`: state is the current
`media_highlights`, the accumulated subtopics and the optional open
subtopic. -/
def parseBodyLoop :
    List String → String → List Subtopic → Option Subtopic →
      String × List Subtopic × Option Subtopic
  | [], media, subs, current => (media, subs, current)
  | line :: rest, media, subs, current =>
    if pyStartsWith (pyStrip line) ("media:") then
      parseBodyLoop rest (pyStrip (pyDrop (pyStrip line) 6)) subs current
    else if pyStartsWith (pyStrip line) ("### ") then
      parseBodyLoop rest media (subs ++ current.toList)
        (some ⟨pyStrip (pyDrop (pyStrip line) 4), "", "", ""⟩)
    else if pyStartsWith (pyStrip line) ("image:") && current.isSome then
      parseBodyLoop rest media subs
        (current.map (fun c => { c with image := pyStrip (pyDrop (pyStrip line) 6) }))
    else if pyStartsWith (pyStrip line) ("caption:") && current.isSome then
      parseBodyLoop rest media subs
        (current.map (fun c => { c with caption := pyStrip (pyDrop (pyStrip line) 8) }))
    else if pyStartsWith (pyStrip line) ("link:") && current.isSome then
      parseBodyLoop rest media subs
        (current.map (fun c => { c with link := pyStrip (pyDrop (pyStrip line) 5) }))
    else
      parseBodyLoop rest media subs current

/-- `parse_body`: parse the body text into media highlights and subtopics;
end of input closes any still-open subtopic. -/
def parse_body (body_text : String) : ParsedBody :=
  if body_text = "" then ⟨"", []⟩
  else
    let st := parseBodyLoop (splitLines body_text) "" [] none
    ⟨st.1, st.2.1 ++ st.2.2.toList⟩

/-- The intro-extraction loop of `sync_projects`: stripped non-blank lines
up to the first `media:` or `### ` line. -/
def introLines : List String → List String
  | [] => []
  | line :: rest =>
    if pyStartsWith (pyStrip line) ("media:") || pyStartsWith (pyStrip line) ("### ") then []
    else if pyStrip line = "" then introLines rest
    else pyStrip line :: introLines rest

/-- The intro paragraph extracted in `sync_projects`: the intro lines
joined with single spaces (`""` for an empty body). -/
def extractIntro (body_text : String) : String :=
  if body_text = "" then ""
  else joinSep " " (introLines (splitLines body_text))

/-! ## Body flattening (`get_page_body_text`) -/

/-- One rich-text run of a block, with its `bold` annotation. -/
structure RichRun where
  plain_text : String := ""
  bold : Bool := false
deriving DecidableEq

/-- A Notion block as consumed by `get_page_body_text`: the text-bearing
types carry their rich-text runs; every other type is `other`. -/
inductive Block where
  | paragraph (rich_text : List RichRun)
  | heading_1 (rich_text : List RichRun)
  | heading_2 (rich_text : List RichRun)
  | heading_3 (rich_text : List RichRun)
  | bulleted_list_item (rich_text : List RichRun)
  | numbered_list_item (rich_text : List RichRun)
  | other
deriving DecidableEq

/-- The inner `for rt in rich_text` loop for paragraph/heading blocks:
bold runs are wrapped in `**…**`, other runs pass through. -/
def blockTextLine (rts : List RichRun) : String :=
  rts.foldl
    (fun line rt =>
      line ++ (if rt.bold then "**" ++ rt.plain_text ++ "**" else rt.plain_text)) ""

/-- How one run is emitted inside a paragraph/heading block. -/
def renderRun (rt : RichRun) : String :=
  if rt.bold then "**" ++ rt.plain_text ++ "**" else rt.plain_text

/-- The line `get_page_body_text` emits for one block: headings get
`#`/`##`/`###` prefixes, bulleted items `- `, numbered items `1. `;
bulleted/numbered items join the runs' `plain_text` only. -/
def blockLine : Block → String
  | Block.paragraph rts => blockTextLine rts
  | Block.heading_1 rts => "# " ++ blockTextLine rts
  | Block.heading_2 rts => "## " ++ blockTextLine rts
  | Block.heading_3 rts => "### " ++ blockTextLine rts
  | Block.bulleted_list_item rts => "- " ++ String.join (rts.map (fun rt => rt.plain_text))
  | Block.numbered_list_item rts => "1. " ++ String.join (rts.map (fun rt => rt.plain_text))
  | Block.other => ""

/-- `get_page_body_text`: the flattened body, one line per block, joined
with newlines (the block sequence is the page's children as delivered by
the paginated block-listing loop). -/
def get_page_body_text (blocks : List Block) : String :=
  joinSep "\n" (blocks.map blockLine)

/-! ## Typeset Escaper (`escape_latex`) -/

/-- The fixed ordered replacement table of `escape_latex`. -/
def replacements : List (String × String) :=
  [("&", "\\&"), ("%", "\\%"), ("#", "\\#"), ("_", "\\_"),
   ("~", "\\textasciitilde\x7b\x7d"),
   ("α", "$\\alpha$"), ("β", "$\\beta$"), ("γ", "$\\gamma$"),
   ("δ", "$\\delta$"), ("μ", "$\\mu$")]

/-- `escape_latex`: apply the replacement table in order (a falsy input is
returned as `""`). -/
def escape_latex (text : String) : String :=
  if text = "" then ""
  else replacements.foldl (fun t p => pyReplace t p.1 p.2) text

/-- The raw reserved characters of the replacement table. -/
def reservedChars : List Char :=
  ['&', '%', '#', '_', '~', 'α', 'β', 'γ', 'δ', 'μ']

/-! ## Inline bold rendering (`render_line_with_bold`)

`re.split(r'(\*\*.+?\*\*)', line)` splits the line into alternating
plain and `**…**` parts (leftmost, non-greedy, `.` not matching a
newline); plain parts are escaped, bold parts become
`\textbf{escaped inner}`. -/

/-- Scan for the closing `**` of a bold span (non-greedy `.+?`): `acc`
holds the inner characters consumed so far (reversed, at least one). -/
def boldCloseGo (acc : List Char) : List Char → Option (List Char × List Char)
  | '*' :: '*' :: rest => some (acc.reverse, rest)
  | c :: rest => if c = '\n' then none else boldCloseGo (c :: acc) rest
  | [] => none

/-- After an opening `**`, match `(.+?)\*\*`: at least one non-newline
character, then the earliest closing `**`. -/
def findBoldSpan : List Char → Option (List Char × List Char)
  | [] => none
  | c :: rest => if c = '\n' then none else boldCloseGo [c] rest

/-- One pass over the line: emit the escape of each maximal plain part and
`\textbf{…}` for each `**…**` part, exactly as the `re.split` +
per-part loop does.  `acc` is the current plain run (reversed); `fuel`
bounds the steps (each consumes input), keeping recursion structural. -/
def rlwbGo : Nat → List Char → List Char → String
  | _, acc, [] => escape_latex (String.mk acc.reverse)
  | 0, acc, l => escape_latex (String.mk (acc.reverse ++ l))
  | fuel + 1, acc, '*' :: '*' :: rest =>
    (match findBoldSpan rest with
     | some (inner, rest2) =>
       escape_latex (String.mk acc.reverse) ++ "\\textbf\x7b" ++
         escape_latex (String.mk inner) ++ "\x7d" ++ rlwbGo fuel [] rest2
     | none => rlwbGo fuel ('*' :: '*' :: acc) rest)
  | fuel + 1, acc, c :: rest => rlwbGo fuel (c :: acc) rest

/-- `render_line_with_bold`: convert a line with `**bold**` markdown to
LaTeX, escaping the non-bold parts. -/
def render_line_with_bold (stripped : String) : String :=
  rlwbGo stripped.data.length [] stripped.data

/-! ## CV Section Renderer (`render_cv_section_body`) -/

/-- The list-opening line emitted by the renderer. -/
def beginItemize : String :=
  "\\begin\x7bitemize\x7d[leftmargin=*, itemsep=2pt, parsep=0pt, topsep=2pt]"

/-- The list-closing line emitted by the renderer. -/
def endItemize : String := "\\end\x7bitemize\x7d"

/-- The vertical-space directive emitted after a closed list. -/
def vspace6 : String := "\\vspace\x7b6pt\x7d"

/-- The award parentheticals bolded inside bullet items. -/
def awards : List String :=
  ["Best Poster Award", "Best Paper Award", "Graduate Student Award"]

/-- The text of one emitted `\item`: the stripped line without its `- `
prefix, escaped, with `(Invited)` and the award parentheticals bolded. -/
def bulletItemText (stripped : String) : String :=
  awards.foldl
    (fun t award => pyReplace t ("(" ++ award ++ ")") ("\\textbf\x7b(" ++ award ++ ")\x7d"))
    (pyReplace (escape_latex (pyDrop stripped 2)) ("(Invited)") ("\\textbf\x7b(Invited)\x7d"))

/-- The full `\item` line emitted for one bullet. -/
def itemLine (stripped : String) : String := "  \\item " ++ bulletItemText stripped

/-- The renderer's lookahead: whether the next non-blank line (skipping any
number of blank lines) starts with `- `; `false` when no non-blank line
follows. -/
def nextIsBullet : List String → Bool
  | [] => false
  | l :: ls => if pyStrip l = "" then nextIsBullet ls else pyStartsWith (pyStrip l) ("- ")

/-- The `while i < len(raw_lines)` loop of `render_cv_section_body`, with
the `in_list` flag as explicit state; end of input closes a still-open
list. -/
def renderLoop : List String → Bool → List String
  | [], in_list => if in_list then [endItemize] else []
  | line :: rest, in_list =>
    if pyStrip line = "" then
      (if in_list then [endItemize] else []) ++ renderLoop rest false
    else if pyStartsWith (pyStrip line) ("- ") then
      (if in_list then [] else [beginItemize]) ++ itemLine (pyStrip line) :: renderLoop rest true
    else
      (if in_list then [endItemize, vspace6] else []) ++
        (render_line_with_bold (pyStrip line) ++
            (if nextIsBullet rest then "" else " \\\\")) ::
          renderLoop rest false

/-- `render_cv_section_body`: render a CV-only section body into LaTeX
lines. -/
def render_cv_section_body (content : String) : List String :=
  renderLoop (splitLines content) false

/-- The renderer's emissions, tagged by which append site produced them:
list opens/closes, the vertical-space directive, `\item` lines (carrying
the stripped source line) and text lines (carrying the emitted string). -/
inductive RLine where
  | openL : RLine
  | closeL : RLine
  | vsp : RLine
  | item : String → RLine
  | txt : String → RLine
deriving DecidableEq

/-- The string each tagged emission stands for. -/
def rstr : RLine → String
  | RLine.openL => beginItemize
  | RLine.closeL => endItemize
  | RLine.vsp => vspace6
  | RLine.item s => itemLine s
  | RLine.txt s => s

/-- `renderLoop` instrumented with emission tags: identical control flow,
each appended line tagged by its append site. -/
def renderTrace : List String → Bool → List RLine
  | [], in_list => if in_list then [RLine.closeL] else []
  | line :: rest, in_list =>
    if pyStrip line = "" then
      (if in_list then [RLine.closeL] else []) ++ renderTrace rest false
    else if pyStartsWith (pyStrip line) ("- ") then
      (if in_list then [] else [RLine.openL]) ++
        RLine.item (pyStrip line) :: renderTrace rest true
    else
      (if in_list then [RLine.closeL, RLine.vsp] else []) ++
        RLine.txt (render_line_with_bold (pyStrip line) ++
            (if nextIsBullet rest then "" else " \\\\")) ::
          renderTrace rest false

/-- List-balance checker over an emission trace, threaded with the
"inside an open list block" flag: opens and closes must strictly
alternate starting with an open, only `\item` lines may occur inside an
open block, and the trace must end outside any block. -/
def traceOk : List RLine → Bool → Bool
  | [], inBlk => !inBlk
  | RLine.openL :: ls, false => traceOk ls true
  | RLine.closeL :: ls, true => traceOk ls false
  | RLine.item _ :: ls, true => traceOk ls true
  | RLine.txt _ :: ls, false => traceOk ls false
  | RLine.vsp :: ls, false => traceOk ls false
  | _, _ => false

/-- Number of list-open emissions in a trace. -/
def countOpens : List RLine → Nat
  | [] => 0
  | r :: ls => (if r = RLine.openL then 1 else 0) + countOpens ls

/-- Number of list-close emissions in a trace. -/
def countCloses : List RLine → Nat
  | [] => 0
  | r :: ls => (if r = RLine.closeL then 1 else 0) + countCloses ls

/-- First non-blank line of a line list, if any. -/
def firstNonBlank : List String → Option String
  | [] => none
  | l :: ls => if pyStrip l = "" then firstNonBlank ls else some l

/-! ## Stable descending sort (Python `list.sort(key=…, reverse=True)`)

Python's sort is stable; with `reverse=True` elements are ordered by key
descending and equal-keyed elements keep their original order.  A stable
insertion sort with the same comparison has exactly this behaviour. -/

/-- Insert `x` (originally later than everything in `l`) into the
descending-sorted `l`: `x` goes after every element whose key is
greater than or equal to its own. -/
def insertDescBy (le : α → α → Bool) (x : α) : List α → List α
  | [] => [x]
  | y :: ys => if le x y then y :: insertDescBy le x ys else x :: y :: ys

/-- Stable descending sort by the comparison `le` (`le a b` = "key of `a`
is at most key of `b`"). -/
def pySortDescBy (le : α → α → Bool) (l : List α) : List α :=
  l.foldl (fun acc x => insertDescBy le x acc) []

/-! ## Honors date reformatting (`sync_honors`)

`datetime.strptime(date_str, "%Y-%m-%d")` in CPython matches `%Y` as
exactly four digits, `%m` as `1[0-2]|0[1-9]|[1-9]`, `%d` as
`3[0-1]|[1-2]\d|0[1-9]|[1-9]| [1-9]` — the last alternative a space
followed by a digit — (ASCII digits modelled), requires the whole
string to be consumed, and the resulting date must be calendar-valid
(year at least 1, day within the month).  `strftime("%m/%Y")` prints the
month zero-padded to two digits and the year unpadded. -/

/-- Numeric value of an ASCII digit. -/
def digitVal (c : Char) : Nat := c.toNat - 48

/-- ASCII digit test. -/
def isDigitChar (c : Char) : Bool := '0' ≤ c ∧ c ≤ '9'

/-- Match `%Y`: exactly four digits. -/
def matchYear : List Char → Option (Nat × List Char)
  | c1 :: c2 :: c3 :: c4 :: rest =>
    if isDigitChar c1 ∧ isDigitChar c2 ∧ isDigitChar c3 ∧ isDigitChar c4 then
      some (((digitVal c1 * 10 + digitVal c2) * 10 + digitVal c3) * 10 + digitVal c4, rest)
    else none
  | _ => none

/-- Match `%m` (the regex `1[0-2]|0[1-9]|[1-9]`, alternatives in order). -/
def matchMonth : List Char → Option (Nat × List Char)
  | c1 :: c2 :: rest =>
    if c1 = '1' ∧ ('0' ≤ c2 ∧ c2 ≤ '2') then some (10 + digitVal c2, rest)
    else if c1 = '0' ∧ ('1' ≤ c2 ∧ c2 ≤ '9') then some (digitVal c2, rest)
    else if '1' ≤ c1 ∧ c1 ≤ '9' then some (digitVal c1, c2 :: rest)
    else none
  | [c1] => if '1' ≤ c1 ∧ c1 ≤ '9' then some (digitVal c1, []) else none
  | [] => none

/-- Match `%d` (the regex `3[0-1]|[1-2]\d|0[1-9]|[1-9]| [1-9]`,
alternatives in order; the last one is a space followed by a non-zero
digit). -/
def matchDay : List Char → Option (Nat × List Char)
  | c1 :: c2 :: rest =>
    if c1 = '3' ∧ (c2 = '0' ∨ c2 = '1') then some (30 + digitVal c2, rest)
    else if (c1 = '1' ∨ c1 = '2') ∧ isDigitChar c2 then
      some (digitVal c1 * 10 + digitVal c2, rest)
    else if c1 = '0' ∧ ('1' ≤ c2 ∧ c2 ≤ '9') then some (digitVal c2, rest)
    else if '1' ≤ c1 ∧ c1 ≤ '9' then some (digitVal c1, c2 :: rest)
    else if c1 = ' ' ∧ ('1' ≤ c2 ∧ c2 ≤ '9') then some (digitVal c2, rest)
    else none
  | [c1] => if '1' ≤ c1 ∧ c1 ≤ '9' then some (digitVal c1, []) else none
  | [] => none

/-- Gregorian leap year, as `datetime` validates it. -/
def isLeap (y : Nat) : Bool := y % 4 = 0 ∧ (y % 100 ≠ 0 ∨ y % 400 = 0)

/-- Days in a month, as `datetime` validates it. -/
def daysInMonth (y m : Nat) : Nat :=
  if m = 2 then (if isLeap y then 29 else 28)
  else if m = 4 ∨ m = 6 ∨ m = 9 ∨ m = 11 then 30
  else 31

/-- `datetime.strptime(s, "%Y-%m-%d")`: `some (y, m, d)` on success,
`none` where Python raises `ValueError`. -/
def parseYMD (s : String) : Option (Nat × Nat × Nat) :=
  match matchYear s.data with
  | some (y, '-' :: rest1) =>
    (match matchMonth rest1 with
     | some (m, '-' :: rest2) =>
       (match matchDay rest2 with
        | some (d, []) =>
          if 1 ≤ y ∧ d ≤ daysInMonth y m then some (y, m, d) else none
        | _ => none)
     | _ => none)
  | _ => none

/-- `dt.strftime("%m/%Y")`: month zero-padded to two digits, year
unpadded. -/
def fmtMY (m y : Nat) : String :=
  (if m < 10 then "0" else "") ++ toString m ++ "/" ++ toString y

/-- The `display_date` computation of `sync_honors`: reformat a date that
parses as `%Y-%m-%d` to `%m/%Y`, keep a non-empty unparsable date
verbatim, and map an absent (empty) date to `""`. -/
def displayDate (date_str : String) : String :=
  if date_str = "" then ""
  else
    match parseYMD date_str with
    | some (y, m, _) => fmtMY m y
    | none => date_str

/-! ## Domain records -/

/-- One normalized publication record (`sync_publications`). -/
structure Publication where
  Title : String := ""
  Authors : String := ""
  Year : Option Int := none
  Journal : String := ""
  Volume_Pages : String := ""
  DOI : String := ""
  PDF_Link : String := ""
  Is_First_Author : Bool := false
  Featured_on_Cover : Bool := false
  Paper_Number : Option Int := none
  Category : String := ""
  Notes : String := ""
deriving DecidableEq

/-- One normalized honors record (`sync_honors`). -/
structure Honor where
  Award : String := ""
  Date : String := ""
  Date_raw : String := ""
  Description : String := ""
deriving DecidableEq

/-- One normalized education record (`sync_education`). -/
structure Education where
  Degree : String := ""
  Institution : String := ""
  Years : String := ""
  Advisor : String := ""
  Order : Option Int := none
deriving DecidableEq

/-- One normalized CV-only section record (`sync_cv_only`). -/
structure CVSection where
  Name : String := ""
  Section : String := ""
  Content : String := ""
  Order : Option Int := none
deriving DecidableEq

/-- The record `sync_honors` builds for one page, given the extracted
award, raw date string and description. -/
def honorsEntry (award date_str desc : String) : Honor :=
  ⟨award, displayDate date_str, date_str, desc⟩

/-- The sort key of `sync_publications` and of the selected/other
publication lists: `x.get("Paper_Number") or 0`. -/
def pubSortKey (x : Publication) : Int := x.Paper_Number.getD 0

/-- Key comparison for the descending publication sorts. -/
def pubLe (a b : Publication) : Bool := decide (pubSortKey a ≤ pubSortKey b)

/-- `pubs.sort(key=lambda x: x.get("Paper_Number") or 0, reverse=True)`. -/
def sortPublications (pubs : List Publication) : List Publication :=
  pySortDescBy pubLe pubs

/-- Key comparison for the descending honors sort:
`x.get("Date_raw") or ""` under Python's lexicographic string order. -/
def honorLe (a b : Honor) : Bool := charsLe a.Date_raw.data b.Date_raw.data

/-- `items.sort(key=lambda x: x.get("Date_raw") or "", reverse=True)` of
`sync_honors`. -/
def sortHonors (items : List Honor) : List Honor :=
  pySortDescBy honorLe items

/-! ## Document Assembler (`generate_latex_cv`)

The Python function accumulates `lines` by successive `append`/`extend`;
the model is the corresponding concatenation of per-block line lists.
`datetime.now().strftime('%m/%Y')` is the `now` parameter. -/

/-- Python `str(x)` of an optional number (`None` prints as `"None"`). -/
def pyStrOfNum : Option Int → String
  | some n => toString n
  | none => "None"

/-- `format_pub_latex`: one publication entry. -/
def format_pub_latex (pub : Publication) : String :=
  let authors :=
    pyReplace (pyReplace (escape_latex pub.Authors) ("Min, J.") ("\\textbf\x7bMin, J.\x7d"))
      ("†") ("$\\dagger$")
  let entry :=
    authors ++ " (" ++ pyStrOfNum pub.Year ++ "). " ++ escape_latex pub.Title ++
      ". \\textbf\x7b\\textit\x7b" ++ escape_latex pub.Journal ++ "\x7d\x7d"
  let entry :=
    if escape_latex pub.Volume_Pages ≠ "" then
      entry ++ ", " ++ escape_latex pub.Volume_Pages
    else entry
  let entry := entry ++ "."
  if pub.Notes ≠ "" then
    entry ++ " " ++
      pyReplace (escape_latex pub.Notes) ("Featured on Journal Cover")
        ("\\textbf\x7bFeatured on Journal Cover\x7d")
  else entry

/-- `get_cv_section`: first CV-only record whose `Section` equals the
requested name (`None` when the collection is absent/empty or no record
matches). -/
def get_cv_section (cv_only : Option (List CVSection)) (section_name : String) :
    Option CVSection :=
  match cv_only with
  | none => none
  | some items => items.find? (fun it => it.Section == section_name)

/-- The `section_map` table from CV section names to LaTeX headers. -/
def section_map (name : String) : String :=
  if name = "Research Experience" then "Research \\& Work Experience"
  else if name = "Teaching & Mentoring" then "Teaching and Mentoring"
  else if name = "Conferences & Talks" then
    "Conference Presentations, Poster Sessions, Invited Talks, and Workshops"
  else if name = "Academic Service" then "Academic Service"
  else if name = "Proposal Writing" then "Proposal Writing Experience"
  else if name = "Patents" then "Patents"
  else ""

/-- The six CV-only section names emitted by `generate_latex_cv`. -/
def cvSectionNames : List String :=
  ["Research Experience", "Teaching & Mentoring", "Conferences & Talks",
   "Academic Service", "Proposal Writing", "Patents"]

/-- The repeated emission pattern for one CV-only section: header, rendered
body and trailing blank line when the section exists, nothing when it
does not. -/
def cvSectionLines (cv_only : Option (List CVSection)) (name : String) : List String :=
  match get_cv_section cv_only name with
  | some sec =>
    ("\\section\x7b" ++ section_map name ++ "\x7d") ::
      (render_cv_section_body sec.Content ++ [""])
  | none => []

/-- The fixed LaTeX preamble lines. -/
def preambleLines : List String :=
  ["\\documentclass[11pt,a4paper]\x7barticle\x7d",
   "\\usepackage[margin=0.75in]\x7bgeometry\x7d",
   "\\usepackage\x7benumitem\x7d",
   "\\usepackage\x7bhyperref\x7d",
   "\\usepackage[T1]\x7bfontenc\x7d",
   "\\usepackage\x7bcharter\x7d",
   "\\usepackage\x7btitlesec\x7d",
   "\\usepackage\x7barray\x7d",
   "\\titleformat\x7b\\section\x7d\x7b\\large\\bfseries\x7d\x7b\x7d\x7b0em\x7d\x7b\x7d[\\titlerule]",
   "\\titlespacing\x7b\\section\x7d\x7b0pt\x7d\x7b10pt\x7d\x7b4pt\x7d",
   "\\setlength\x7b\\parindent\x7d\x7b0pt\x7d",
   "\\setlength\x7b\\parskip\x7d\x7b0pt\x7d",
   "\\begin\x7bdocument\x7d",
   ""]

/-- The fixed CV header lines. -/
def headerLines : List String :=
  ["\x7b\\LARGE \\textbf\x7bJihong Min\x7d\x7d \\\\[4pt]",
   "Presidential Young Professor, Department of Biomedical Engineering \\\\",
   "National University of Singapore \\\\",
   "N1 Institute for Health, 28 Medical Dr, Singapore 117456 \\\\",
   "Email: jhmin@nus.edu.sg \\\\",
   "\\href\x7bhttps://scholar.google.com/citations?user=T4pVa1UAAAAJ\x7d\x7bGoogle Scholar\x7d",
   ""]

/-- The table rows for one education entry. -/
def eduEntryLines (edu : Education) : List String :=
  [escape_latex edu.Years ++ " & " ++ escape_latex edu.Degree ++ " \\\\",
   " & " ++ escape_latex edu.Institution ++ " \\\\"] ++
  (if escape_latex edu.Advisor ≠ "" then
    [" & \\textit\x7b" ++ escape_latex edu.Advisor ++ "\x7d \\\\"]
  else [])

/-- All education rows, with the inter-entry spacing row after every entry
but the last. -/
def eduRows : List Education → List String
  | [] => []
  | [e] => eduEntryLines e
  | e :: rest => eduEntryLines e ++ [" & \\\\[4pt]"] ++ eduRows rest

/-- The Education section block. -/
def educationSection (education : List Education) : List String :=
  ["\\section\x7bEducation\x7d",
   "\\begin\x7btabular\x7d\x7b@\x7b\x7d >\x7b\\bfseries\x7dp\x7b2.2cm\x7d p\x7b\\dimexpr\\textwidth-2.5cm\\relax\x7d @\x7b\x7d\x7d"] ++
  eduRows education ++
  ["\\end\x7btabular\x7d", ""]

/-- The Honors & Awards section block. -/
def honorsSection (honors : List Honor) : List String :=
  ["\\section\x7bHonors \\& Awards\x7d",
   "\\begin\x7bitemize\x7d[leftmargin=*, itemsep=1pt, parsep=0pt, topsep=2pt]"] ++
  honors.map (fun honor =>
    "  \\item " ++ escape_latex honor.Date ++ ". " ++ escape_latex honor.Award) ++
  [endItemize, ""]

/-- The Selected Publications section block (`now` stands for
`datetime.now().strftime('%m/%Y')`). -/
def selectedSection (pubs : List Publication) (now : String) : List String :=
  ["\\section\x7bSelected Publications\x7d",
   "(" ++ toString pubs.length ++ " papers with " ++
     toString (pubs.filter (fun p => p.Is_First_Author)).length ++
     " as first/co-first author, $>$7000 citations, h-index 23, updated " ++ now ++ ")",
   "$\\dagger$ indicates equal contributions",
   "",
   "\\begin\x7benumerate\x7d[leftmargin=*, itemsep=2pt, parsep=0pt, topsep=2pt]"] ++
  (pySortDescBy pubLe (pubs.filter (fun p => p.Category == "Selected"))).map
    (fun pub => "  \\item " ++ format_pub_latex pub) ++
  ["\\end\x7benumerate\x7d", ""]

/-- The Other Publications section block. -/
def otherSection (pubs : List Publication) : List String :=
  ["\\section\x7bOther Publications\x7d",
   "\\begin\x7benumerate\x7d[leftmargin=*, itemsep=2pt, parsep=0pt, topsep=2pt]"] ++
  (pySortDescBy pubLe (pubs.filter (fun p => !(p.Category == "Selected")))).map
    (fun pub => "  \\item " ++ format_pub_latex pub) ++
  ["\\end\x7benumerate\x7d", ""]

/-- `generate_latex_cv`: the full generated line sequence, in the fixed
section order of the source. -/
def generate_latex_cv (pubs : List Publication) (honors : List Honor)
    (education : List Education) (cv_only : Option (List CVSection))
    (now : String) : List String :=
  preambleLines ++ headerLines ++
  educationSection education ++
  cvSectionLines cv_only "Research Experience" ++
  honorsSection honors ++
  cvSectionLines cv_only "Teaching & Mentoring" ++
  cvSectionLines cv_only "Conferences & Talks" ++
  cvSectionLines cv_only "Academic Service" ++
  cvSectionLines cv_only "Proposal Writing" ++
  cvSectionLines cv_only "Patents" ++
  selectedSection pubs now ++
  otherSection pubs ++
  ["\\end\x7bdocument\x7d"]

/-! ## Concrete inputs used by the claims -/

/-- The Subtopic Extractor test input from the specification. -/
def c3Input : String :=
  "Intro line.\nmedia: press clip\n### Topic A\nimage: a.png\ncaption: c1\nlink: http://x\n### Topic B\nimage: b.png"

/-- Three store responses of sizes 100, 100 and 7 with
`has_more = [true, true, false]`, carrying the records `0..206`. -/
def pages3 : List (QueryResponse Nat) :=
  [⟨List.range' 0 100, true, some "c1"⟩,
   ⟨List.range' 100 100, true, some "c2"⟩,
   ⟨List.range' 200 7, false, none⟩]

/-- A publication with only its `Paper_Number` set. -/
def pubWithNumber (n : Option Int) : Publication :=
  ⟨"", "", none, "", "", "", "", false, false, n, "", ""⟩

/-! # Helper lemmas -/

/-- Replacing a single-character pattern that does not occur leaves the
character list unchanged. -/
theorem replaceFuel_single_notin (p : Char) (rep : List Char) (l : List Char) :
    ∀ fuel : Nat, p ∉ l → replaceFuel [p] rep fuel l = l := by
  induction l with
  | nil => intro fuel _; cases fuel <;> rfl
  | cons c rest ih =>
    intro fuel hp
    cases fuel with
    | zero => rfl
    | succ f =>
      have hc : (p = c) = False := by
        simp only [eq_iff_iff, iff_false]
        rintro rfl; exact hp (List.mem_cons_self p rest)
      have hrest : p ∉ rest := fun h => hp (List.mem_cons_of_mem c h)
      simp [replaceFuel, listPre, hc, ih f hrest]

/-- `pyReplace` with a single-character pattern that does not occur in the
string is the identity. -/
theorem pyReplace_single_notin (s : String) (p : Char) (pat rep : String)
    (hp : pat.data = [p]) (h : p ∉ s.data) : pyReplace s pat rep = s := by
  unfold pyReplace
  rw [hp, if_neg (by simp), replaceFuel_single_notin p rep.data s.data _ h]

/-- `escape_latex` leaves a string without reserved characters unchanged. -/
theorem escape_latex_of_no_reserved (s : String) (h : ∀ c ∈ s.data, c ∉ reservedChars) :
    escape_latex s = s := by
  unfold escape_latex
  by_cases hs : s = ""
  · simp [hs]
  · rw [if_neg hs]
    simp only [replacements, List.foldl]
    rw [pyReplace_single_notin s '&' ("&") ("\\&") (by decide)
          (fun hc => h _ hc (by decide)),
        pyReplace_single_notin s '%' ("%") ("\\%") (by decide)
          (fun hc => h _ hc (by decide)),
        pyReplace_single_notin s '#' ("#") ("\\#") (by decide)
          (fun hc => h _ hc (by decide)),
        pyReplace_single_notin s '_' ("_") ("\\_") (by decide)
          (fun hc => h _ hc (by decide)),
        pyReplace_single_notin s '~' ("~") ("\\textasciitilde\x7b\x7d") (by decide)
          (fun hc => h _ hc (by decide)),
        pyReplace_single_notin s 'α' ("α") ("$\\alpha$") (by decide)
          (fun hc => h _ hc (by decide)),
        pyReplace_single_notin s 'β' ("β") ("$\\beta$") (by decide)
          (fun hc => h _ hc (by decide)),
        pyReplace_single_notin s 'γ' ("γ") ("$\\gamma$") (by decide)
          (fun hc => h _ hc (by decide)),
        pyReplace_single_notin s 'δ' ("δ") ("$\\delta$") (by decide)
          (fun hc => h _ hc (by decide)),
        pyReplace_single_notin s 'μ' ("μ") ("$\\mu$") (by decide)
          (fun hc => h _ hc (by decide))]

/-! # Claim theorems -/

/-- C2: for property bags in which a given field is absent (the property
missing or `None`), each Normalizer extractor returns its documented
default — `get_text`, `get_select`, `get_url`, `get_email` the empty
string, `get_number` null, `get_checkbox` false, `get_date` the empty
string (also when the property exists but its inner date object is
absent); no extractor can raise (all are total Lean functions). -/
theorem c2_extractor_defaults (p : NProp) :
    get_text none = "" ∧ get_select none = "" ∧ get_url none = "" ∧
    get_email none = "" ∧ get_number none = none ∧ get_checkbox none = false ∧
    get_date none = "" ∧
    get_text (some { p with rich_text := none, title := none }) = "" ∧
    get_number (some { p with number := none }) = none ∧
    get_select (some { p with select := none }) = "" ∧
    get_checkbox (some { p with checkbox := none }) = false ∧
    get_url (some { p with url := none }) = "" ∧
    get_email (some { p with email := none }) = "" ∧
    get_date (some { p with date := none }) = "" ∧
    get_date (some { p with date := some ⟨none⟩ }) = "" :=
  ⟨rfl, rfl, rfl, rfl, rfl, rfl, rfl, rfl, rfl, rfl, rfl, rfl, rfl, rfl, rfl⟩

/-- C3: on the specification's test input, the Subtopic Extractor yields
intro `"Intro line."`, media highlights `"press clip"`, and exactly the
two subtopics `Topic A` (image, caption, link all set) and `Topic B`
(image set, caption and link empty), in order of appearance. -/
theorem c3_subtopic_extractor :
    parse_body c3Input =
      ⟨"press clip",
       [⟨"Topic A", "a.png", "c1", "http://x"⟩, ⟨"Topic B", "b.png", "", ""⟩]⟩ ∧
    extractIntro c3Input = "Intro line." := by decide

/-- C6: for every finite sequence of store responses in which every
response before the last reports `has_more = true`, `query_all`
terminates (it is a total function) and returns the concatenation of the
responses' record lists in delivery order — no reordering, dropping or
duplication. -/
theorem query_all_cons_true {α : Type} (r : QueryResponse α)
    (rest : List (QueryResponse α)) (hr : r.has_more = true) :
    query_all (r :: rest) = r.results ++ query_all rest := by
  simp [query_all, hr]

theorem c6_query_all_concat {α : Type} (rs : List (QueryResponse α))
    (h : ∀ r ∈ rs.dropLast, r.has_more = true) :
    query_all rs = (rs.map QueryResponse.results).flatten := by
  induction rs with
  | nil => rfl
  | cons r rest ih =>
    cases rest with
    | nil =>
      cases hr : r.has_more <;> simp [query_all, hr]
    | cons r2 rest2 =>
      have hr : r.has_more = true := h r (by simp [List.dropLast_cons₂])
      have h2 : ∀ x ∈ (r2 :: rest2).dropLast, x.has_more = true := by
        intro x hx
        exact h x (by simp only [List.dropLast_cons₂, List.mem_cons]; exact Or.inr hx)
      rw [query_all_cons_true r (r2 :: rest2) hr, ih h2]
      simp

/-- Witness for C6: three pages of sizes 100, 100 and 7 with
`has_more = [true, true, false]` yield the single 207-record sequence
`0..206`, preserving page-internal order. -/
theorem c6_witness :
    (∀ r ∈ pages3.dropLast, r.has_more = true) ∧
    query_all pages3 = (pages3.map QueryResponse.results).flatten ∧
    query_all pages3 = List.range 207 ∧ (query_all pages3).length = 207 :=
  ⟨by decide, c6_query_all_concat pages3 (by decide), by decide, by decide⟩

/-- C8: the Typeset Escaper leaves unchanged every string containing none
of the reserved characters of its replacement table, and is therefore
idempotent on such (in particular already-escaped) text. -/
theorem c8_escaper_id_idempotent (s : String) (h : ∀ c ∈ s.data, c ∉ reservedChars) :
    escape_latex s = s ∧ escape_latex (escape_latex s) = escape_latex s := by
  have h1 : escape_latex s = s := escape_latex_of_no_reserved s h
  exact ⟨h1, by rw [h1]; exact h1⟩

/-- Witness for C8: plain ASCII text without reserved symbols round-trips
unchanged, twice. -/
theorem c8_witness :
    (∀ c ∈ ("Plain ASCII text, 123.").data, c ∉ reservedChars) ∧
    escape_latex ("Plain ASCII text, 123.") = "Plain ASCII text, 123." ∧
    escape_latex (escape_latex ("Plain ASCII text, 123.")) =
      escape_latex ("Plain ASCII text, 123.") :=
  ⟨by decide,
   (c8_escaper_id_idempotent ("Plain ASCII text, 123.") (by decide)).1,
   (c8_escaper_id_idempotent ("Plain ASCII text, 123.") (by decide)).2⟩

/-! ## Sort lemmas (stability-independent facts about `pySortDescBy`) -/

theorem insertDescBy_perm (le : α → α → Bool) (x : α) (l : List α) :
    List.Perm (insertDescBy le x l) (x :: l) := by
  induction l with
  | nil => exact List.Perm.refl [x]
  | cons y ys ih =>
    by_cases h : le x y
    · simp only [insertDescBy, h, if_true]
      exact (ih.cons y).trans (List.Perm.swap x y ys)
    · simp [insertDescBy, h]

theorem pySortDescBy_go_perm (le : α → α → Bool) (l acc : List α) :
    List.Perm (l.foldl (fun acc x => insertDescBy le x acc) acc) (acc ++ l) := by
  induction l generalizing acc with
  | nil => simp
  | cons x xs ih =>
    simp only [List.foldl_cons]
    refine (ih (insertDescBy le x acc)).trans ?_
    refine ((insertDescBy_perm le x acc).append_right xs).trans ?_
    exact List.perm_middle.symm

theorem pySortDescBy_perm (le : α → α → Bool) (l : List α) :
    List.Perm (pySortDescBy le l) l := by
  simpa using pySortDescBy_go_perm le l []

theorem insertDescBy_pairwise (le : α → α → Bool)
    (htot : ∀ a b, le a b = false → le b a = true)
    (htrans : ∀ a b c, le a b = true → le b c = true → le a c = true)
    (x : α) (l : List α) (h : List.Pairwise (fun a b => le b a = true) l) :
    List.Pairwise (fun a b => le b a = true) (insertDescBy le x l) := by
  induction l with
  | nil => simp [insertDescBy]
  | cons y ys ih =>
    rcases List.pairwise_cons.mp h with ⟨hy, hys⟩
    by_cases hxy : le x y
    · simp only [insertDescBy, hxy, if_true]
      refine List.pairwise_cons.mpr ⟨?_, ih hys⟩
      intro z hz
      have hz2 : z = x ∨ z ∈ ys := by
        have := (insertDescBy_perm le x ys).mem_iff.mp hz
        simpa using this
      rcases hz2 with rfl | hz2
      · exact hxy
      · exact hy z hz2
    · simp only [insertDescBy, hxy, if_false]
      have hyx : le y x = true := htot x y (by simpa using hxy)
      refine List.pairwise_cons.mpr ⟨?_, h⟩
      intro z hz
      rcases List.mem_cons.mp hz with rfl | hz2
      · exact hyx
      · exact htrans z y x (hy z hz2) hyx

theorem pySortDescBy_pairwise (le : α → α → Bool)
    (htot : ∀ a b, le a b = false → le b a = true)
    (htrans : ∀ a b c, le a b = true → le b c = true → le a c = true)
    (l : List α) :
    List.Pairwise (fun a b => le b a = true) (pySortDescBy le l) := by
  suffices hgo : ∀ acc, List.Pairwise (fun a b => le b a = true) acc →
      List.Pairwise (fun a b => le b a = true)
        (l.foldl (fun acc x => insertDescBy le x acc) acc) by
    exact hgo [] (by simp)
  induction l with
  | nil => intro acc hacc; simpa using hacc
  | cons x xs ih =>
    intro acc hacc
    exact ih (insertDescBy le x acc) (insertDescBy_pairwise le htot htrans x acc hacc)

/-- Counterexample to C5: the sort keys a missing `Paper_Number` as 0, so a
record with `Paper_Number = -1` sorts after the null record, not before —
missing records are not "placed last". -/
theorem c5_counterexample :
    (sortPublications [pubWithNumber (some (-1)), pubWithNumber none]).map
        (fun p => p.Paper_Number) ≠ [some (-1), none] ∧
    (sortPublications [pubWithNumber (some (-1)), pubWithNumber none]).map
        (fun p => p.Paper_Number) = [none, some (-1)] := by decide

/-- C5 (amended): the publication sort orders records by
`Paper_Number or 0` descending (a missing/null `Paper_Number` is keyed as
0, hence placed last whenever all present values are positive), and is a
permutation of its input; in particular `[5, null, 10, 3]` sorts to
`[10, 5, 3, null]`. -/
theorem c5_sort_amended (ps : List Publication) :
    (sortPublications [pubWithNumber (some 5), pubWithNumber none,
        pubWithNumber (some 10), pubWithNumber (some 3)]).map
        (fun p => p.Paper_Number) = [some 10, some 5, some 3, none] ∧
    List.Pairwise (fun a b => pubSortKey b ≤ pubSortKey a) (sortPublications ps) ∧
    List.Perm (sortPublications ps) ps := by
  refine ⟨by decide, ?_, pySortDescBy_perm pubLe ps⟩
  have htot : ∀ a b : Publication, pubLe a b = false → pubLe b a = true := by
    intro a b hab
    simp only [pubLe, decide_eq_false_iff_not, not_le] at hab
    simp only [pubLe, decide_eq_true_eq]
    omega
  have htrans : ∀ a b c : Publication,
      pubLe a b = true → pubLe b c = true → pubLe a c = true := by
    intro a b c hab hbc
    simp only [pubLe, decide_eq_true_eq] at hab hbc ⊢
    omega
  have h := pySortDescBy_pairwise pubLe htot htrans ps
  exact h.imp (fun hab => by simpa [pubLe] using hab)

/-- `String.join`'s left fold shifted by an accumulator. -/
theorem string_foldl_shift (l : List String) :
    ∀ acc : String, l.foldl (fun r s => r ++ s) acc = acc ++ String.join l := by
  induction l with
  | nil => intro acc; simp [String.join]
  | cons s rest ih =>
    intro acc
    show rest.foldl _ (acc ++ s) = acc ++ String.join (s :: rest)
    rw [ih (acc ++ s)]
    have hc : String.join (s :: rest) = s ++ String.join rest := by
      show rest.foldl _ ("" ++ s) = _
      rw [String.empty_append, ih s]
    rw [hc, String.append_assoc]

/-- `String.join` over a cons cell. -/
theorem string_join_cons (s : String) (l : List String) :
    String.join (s :: l) = s ++ String.join l := by
  show l.foldl _ ("" ++ s) = _
  rw [String.empty_append, string_foldl_shift l s]

/-- The paragraph/heading run loop equals mapping `renderRun` over the runs
and concatenating. -/
theorem blockTextLine_eq_join (rts : List RichRun) :
    blockTextLine rts = String.join (rts.map renderRun) := by
  suffices hgo : ∀ acc, rts.foldl
      (fun line rt =>
        line ++ (if rt.bold then "**" ++ rt.plain_text ++ "**" else rt.plain_text)) acc =
      acc ++ String.join (rts.map renderRun) by
    simpa using hgo ""
  induction rts with
  | nil => intro acc; simp [String.join]
  | cons rt rest ih =>
    intro acc
    simp only [List.foldl_cons, List.map_cons, ih]
    show acc ++ renderRun rt ++ String.join (rest.map renderRun) = _
    rw [string_join_cons, String.append_assoc]

/-- Counterexample to C7: a bold run inside a bulleted list item is not
wrapped in `**…**`; the item joins the runs' plain text only. -/
theorem c7_counterexample :
    get_page_body_text [Block.bulleted_list_item [⟨"x", true⟩]] = "- x" ∧
    get_page_body_text [Block.bulleted_list_item [⟨"x", true⟩]] ≠ "- **x**" := by
  decide

/-- C7 (amended): in the flattened body text, bold-annotated runs are
wrapped as `**text**` (and unannotated runs pass through unchanged) in
paragraph and heading blocks; bulleted and numbered list items instead
concatenate the runs' plain text, ignoring annotations. -/
theorem c7_bold_wrapping_amended (rts : List RichRun) :
    blockLine (Block.paragraph rts) = String.join (rts.map renderRun) ∧
    blockLine (Block.heading_1 rts) = "# " ++ String.join (rts.map renderRun) ∧
    blockLine (Block.heading_2 rts) = "## " ++ String.join (rts.map renderRun) ∧
    blockLine (Block.heading_3 rts) = "### " ++ String.join (rts.map renderRun) ∧
    blockLine (Block.bulleted_list_item rts) =
      "- " ++ String.join (rts.map (fun rt => rt.plain_text)) ∧
    blockLine (Block.numbered_list_item rts) =
      "1. " ++ String.join (rts.map (fun rt => rt.plain_text)) ∧
    (∀ rt : RichRun, rt.bold = true → renderRun rt = "**" ++ rt.plain_text ++ "**") ∧
    (∀ rt : RichRun, rt.bold = false → renderRun rt = rt.plain_text) := by
  refine ⟨blockTextLine_eq_join rts, ?_, ?_, ?_, rfl, rfl, ?_, ?_⟩
  · show "# " ++ blockTextLine rts = _; rw [blockTextLine_eq_join rts]
  · show "## " ++ blockTextLine rts = _; rw [blockTextLine_eq_join rts]
  · show "### " ++ blockTextLine rts = _; rw [blockTextLine_eq_join rts]
  · intro rt hb; simp [renderRun, hb]
  · intro rt hb; simp [renderRun, hb]

/-- C10: the Honors `Date` field is the raw date reformatted as `%m/%Y`
when it parses exactly as `%Y-%m-%d`, the raw string unchanged when
non-empty but unparsable, and `""` when the date is absent; `Date_raw`
always carries the raw date, and the descending honors sort compares
`Date_raw` — the concrete pair below sorts by `Date_raw` order, which is
the reverse of its reformatted-`Date` order. -/
theorem c10_honors_date (award desc raw : String) :
    (honorsEntry award raw desc).Date_raw = raw ∧
    (raw = "" → (honorsEntry award raw desc).Date = "") ∧
    (∀ y m d, parseYMD raw = some (y, m, d) →
      (honorsEntry award raw desc).Date = fmtMY m y) ∧
    (raw ≠ "" → parseYMD raw = none → (honorsEntry award raw desc).Date = raw) ∧
    sortHonors [honorsEntry "A" "2020-12-01" "", honorsEntry "B" "2021-02-01" ""] =
      [honorsEntry "B" "2021-02-01" "", honorsEntry "A" "2020-12-01" ""] ∧
    charsLe (honorsEntry "B" "2021-02-01" "").Date.data
        (honorsEntry "A" "2020-12-01" "").Date.data = true := by
  refine ⟨rfl, ?_, ?_, ?_, by decide, by decide⟩
  · intro h; simp [honorsEntry, displayDate, h]
  · intro y m d hp
    have hne : ¬ (raw = "") := by
      rintro rfl
      rw [show parseYMD "" = none from by decide] at hp
      exact Option.noConfusion hp
    simp [honorsEntry, displayDate, hne, hp]
  · intro h1 h2; simp [honorsEntry, displayDate, h1, h2]

/-- Witness for C10: a parsing date is reformatted to `%m/%Y` (also with
the space-padded day form `%d` accepts), an unparsable one kept
verbatim. -/
theorem c10_witness :
    parseYMD "2021-02-03" = some (2021, 2, 3) ∧
    (honorsEntry "A" "2021-02-03" "").Date = fmtMY 2 2021 ∧
    parseYMD "2021-02- 3" = some (2021, 2, 3) ∧
    (honorsEntry "A" "2021-02- 3" "").Date = fmtMY 2 2021 ∧
    (honorsEntry "A" "not a date" "").Date = "not a date" :=
  ⟨by decide,
   (c10_honors_date "A" "" "2021-02-03").2.2.1 2021 2 3 (by decide),
   by decide,
   (c10_honors_date "A" "" "2021-02- 3").2.2.1 2021 2 3 (by decide),
   (c10_honors_date "A" "" "not a date").2.2.2.1 (by decide) (by decide)⟩

/-! ## Renderer trace lemmas -/

/-- The renderer's output is the string projection of its tagged emission
trace (identical control flow, emission for emission). -/
theorem renderLoop_eq_trace (ls : List String) :
    ∀ b, renderLoop ls b = (renderTrace ls b).map rstr := by
  induction ls with
  | nil => intro b; cases b <;> simp [renderLoop, renderTrace, rstr]
  | cons line rest ih =>
    intro b
    by_cases h1 : pyStrip line = ""
    · cases b <;> simp [renderLoop, renderTrace, h1, ih, rstr]
    · by_cases h2 : pyStartsWith (pyStrip line) ("- ") = true
      · cases b <;> simp [renderLoop, renderTrace, h1, h2, ih, rstr]
      · cases b <;> simp [renderLoop, renderTrace, h1, h2, ih, rstr]

/-- The emission trace always passes the list-balance checker, from any
starting in-list state. -/
theorem traceOk_renderTrace (ls : List String) :
    ∀ b, traceOk (renderTrace ls b) b = true := by
  induction ls with
  | nil => intro b; cases b <;> rfl
  | cons line rest ih =>
    intro b
    by_cases h1 : pyStrip line = ""
    · cases b <;> simp [renderTrace, h1, traceOk, ih]
    · by_cases h2 : pyStartsWith (pyStrip line) ("- ") = true
      · cases b <;> simp [renderTrace, h1, h2, traceOk, ih]
      · cases b <;> simp [renderTrace, h1, h2, traceOk, ih]

/-- Close emissions exceed open emissions by exactly one when starting
inside a list, and match exactly when starting outside. -/
theorem counts_renderTrace (ls : List String) :
    ∀ b, countCloses (renderTrace ls b) =
      countOpens (renderTrace ls b) + (if b then 1 else 0) := by
  induction ls with
  | nil => intro b; cases b <;> rfl
  | cons line rest ih =>
    intro b
    by_cases h1 : pyStrip line = ""
    · cases b <;> simp [renderTrace, h1, countOpens, countCloses, ih] <;> omega
    · by_cases h2 : pyStartsWith (pyStrip line) ("- ") = true
      · cases b <;> simp [renderTrace, h1, h2, countOpens, countCloses, ih] <;> omega
      · cases b <;> simp [renderTrace, h1, h2, countOpens, countCloses, ih] <;> omega

/-- The lookahead equals testing the first non-blank line for the bullet
prefix. -/
theorem nextIsBullet_eq (ls : List String) :
    nextIsBullet ls =
      (firstNonBlank ls).elim false (fun nl => pyStartsWith (pyStrip nl) ("- ")) := by
  induction ls with
  | nil => rfl
  | cons l rest ih =>
    by_cases h : pyStrip l = ""
    · simp [nextIsBullet, firstNonBlank, h, ih]
    · simp [nextIsBullet, firstNonBlank, h]

/-- C1: for every input, the CV Section Renderer's line sequence is the
projection of its emission trace, and that trace is list-balanced: opens
and closes strictly alternate starting with an open, only `\item` lines
occur inside an open block (so every block is closed before the next
non-item line or end of input, and the output never ends inside an open
block), and open and close emissions are equinumerous. -/
theorem c1_list_balance (content : String) :
    render_cv_section_body content = (renderTrace (splitLines content) false).map rstr ∧
    traceOk (renderTrace (splitLines content) false) false = true ∧
    countOpens (renderTrace (splitLines content) false) =
      countCloses (renderTrace (splitLines content) false) := by
  refine ⟨renderLoop_eq_trace (splitLines content) false,
    traceOk_renderTrace (splitLines content) false, ?_⟩
  have h := counts_renderTrace (splitLines content) false
  simp only [if_neg Bool.false_ne_true] at h
  omega

/-- C4: a non-blank non-bullet line whose next non-blank line (skipping
blanks) starts with `- ` is emitted without the ` \\` terminator, and
with it when the next non-blank line is not a bullet or no non-blank
line follows. -/
theorem c4_header_lookahead (line : String) (rest : List String) (b : Bool)
    (h1 : pyStrip line ≠ "") (h2 : pyStartsWith (pyStrip line) ("- ") = false) :
    renderLoop (line :: rest) b =
      (if b then [endItemize, vspace6] else []) ++
        (render_line_with_bold (pyStrip line) ++
            (if (firstNonBlank rest).elim false
                (fun nl => pyStartsWith (pyStrip nl) ("- ")) then "" else " \\\\")) ::
          renderLoop rest false := by
  conv_lhs => rw [renderLoop]
  rw [if_neg h1, nextIsBullet_eq rest]
  simp [h2]

/-- Witness for C4: a concrete header followed (after a blank) by a bullet
is emitted without the terminator. -/
theorem c4_witness :
    pyStrip ("Role Header") ≠ "" ∧
    pyStartsWith (pyStrip ("Role Header")) ("- ") = false ∧
    renderLoop ["Role Header", "", "- item"] false =
      (if false then [endItemize, vspace6] else []) ++
        (render_line_with_bold (pyStrip ("Role Header")) ++
            (if (firstNonBlank ["", "- item"]).elim false
                (fun nl => pyStartsWith (pyStrip nl) ("- ")) then "" else " \\\\")) ::
          renderLoop ["", "- item"] false :=
  ⟨by decide, by decide,
   c4_header_lookahead ("Role Header") ["", "- item"] false (by decide) (by decide)⟩

/-! ## CV-only section lookup lemmas -/

/-- Filtering out every record of a section makes its lookup fail. -/
theorem find?_filter_self (l : List CVSection) (name : String) :
    (l.filter (fun it => !(it.Section == name))).find?
      (fun it => it.Section == name) = none := by
  induction l with
  | nil => rfl
  | cons x xs ih =>
    by_cases hx : (x.Section == name) = true
    · simp [List.filter_cons, hx, ih]
    · simp [List.filter_cons, List.find?_cons, hx, ih]

/-- Filtering out one section's records leaves every other section's
lookup unchanged. -/
theorem find?_filter_other (l : List CVSection) (name other : String)
    (hne : other ≠ name) :
    (l.filter (fun it => !(it.Section == name))).find?
        (fun it => it.Section == other) =
      l.find? (fun it => it.Section == other) := by
  induction l with
  | nil => rfl
  | cons x xs ih =>
    by_cases hx : (x.Section == name) = true
    · have hx2 : x.Section = name := by simpa using hx
      have hxo : (x.Section == other) = false := by
        simp only [hx2, beq_eq_false_iff_ne]
        exact Ne.symm hne
      simp [List.filter_cons, hx, List.find?_cons, hxo, ih]
    · by_cases hxo : (x.Section == other) = true
      · simp [List.filter_cons, hx, List.find?_cons, hxo]
      · simp [List.filter_cons, hx, List.find?_cons, hxo, ih]

/-- `get_cv_section` over a present collection is a first-match lookup. -/
theorem get_cv_section_some (items : List CVSection) (name : String) :
    get_cv_section (some items) name = items.find? (fun it => it.Section == name) := rfl

/-- A section with all its records filtered out is not found. -/
theorem get_cv_section_filter_self (l : List CVSection) (name : String) :
    get_cv_section (some (l.filter (fun it => !(it.Section == name)))) name = none := by
  rw [get_cv_section_some]
  exact find?_filter_self l name

/-- A section with all its records filtered out contributes no lines. -/
theorem cvSectionLines_filter_self (l : List CVSection) (name : String) :
    cvSectionLines (some (l.filter (fun it => !(it.Section == name)))) name = [] := by
  unfold cvSectionLines
  rw [get_cv_section_filter_self l name]

/-- Other sections' emitted lines are unchanged by the removal. -/
theorem cvSectionLines_filter_other (l : List CVSection) (name other : String)
    (hne : other ≠ name) :
    cvSectionLines (some (l.filter (fun it => !(it.Section == name)))) other =
      cvSectionLines (some l) other := by
  unfold cvSectionLines
  rw [get_cv_section_some, get_cv_section_some, find?_filter_other l name other hne]

/-- C9: if the CV-only collection contains no record whose `Section` equals
a given named CV section, that section -- header line and body -- is
entirely omitted from the generated document (its lookup is `none` and it
contributes no lines, with no error: all functions are total), and every
other part of the document is unaffected: the document generated from the
collection with that section's records removed is exactly the full
document with that section's block deleted. -/
theorem c9_absent_section_omitted (pubs : List Publication) (honors : List Honor)
    (education : List Education) (cvs : List CVSection) (now : String) (name : String)
    (hmem : name ∈ cvSectionNames) :
    get_cv_section (some (cvs.filter (fun it => !(it.Section == name)))) name = none ∧
    cvSectionLines (some (cvs.filter (fun it => !(it.Section == name)))) name = [] ∧
    ∃ pre post,
      generate_latex_cv pubs honors education (some cvs) now =
        pre ++ cvSectionLines (some cvs) name ++ post ∧
      generate_latex_cv pubs honors education
          (some (cvs.filter (fun it => !(it.Section == name)))) now = pre ++ post := by
  refine ⟨get_cv_section_filter_self cvs name, cvSectionLines_filter_self cvs name, ?_⟩
  simp only [cvSectionNames, List.mem_cons, List.not_mem_nil, or_false] at hmem
  rcases hmem with rfl | rfl | rfl | rfl | rfl | rfl
  · refine ⟨preambleLines ++ headerLines ++
        educationSection education,
      honorsSection honors ++
        cvSectionLines (some cvs) "Teaching & Mentoring" ++
        cvSectionLines (some cvs) "Conferences & Talks" ++
        cvSectionLines (some cvs) "Academic Service" ++
        cvSectionLines (some cvs) "Proposal Writing" ++
        cvSectionLines (some cvs) "Patents" ++
        selectedSection pubs now ++
        otherSection pubs ++
        ["\\end\x7bdocument\x7d"], ?_, ?_⟩
    · simp [generate_latex_cv, List.append_assoc]
    · simp only [generate_latex_cv]
      rw [cvSectionLines_filter_self cvs "Research Experience",
        cvSectionLines_filter_other cvs "Research Experience" "Teaching & Mentoring" (by decide),
        cvSectionLines_filter_other cvs "Research Experience" "Conferences & Talks" (by decide),
        cvSectionLines_filter_other cvs "Research Experience" "Academic Service" (by decide),
        cvSectionLines_filter_other cvs "Research Experience" "Proposal Writing" (by decide),
        cvSectionLines_filter_other cvs "Research Experience" "Patents" (by decide)]
      simp [List.append_assoc]
  · refine ⟨preambleLines ++ headerLines ++
        educationSection education ++
        cvSectionLines (some cvs) "Research Experience" ++
        honorsSection honors,
      cvSectionLines (some cvs) "Conferences & Talks" ++
        cvSectionLines (some cvs) "Academic Service" ++
        cvSectionLines (some cvs) "Proposal Writing" ++
        cvSectionLines (some cvs) "Patents" ++
        selectedSection pubs now ++
        otherSection pubs ++
        ["\\end\x7bdocument\x7d"], ?_, ?_⟩
    · simp [generate_latex_cv, List.append_assoc]
    · simp only [generate_latex_cv]
      rw [cvSectionLines_filter_self cvs "Teaching & Mentoring",
        cvSectionLines_filter_other cvs "Teaching & Mentoring" "Research Experience" (by decide),
        cvSectionLines_filter_other cvs "Teaching & Mentoring" "Conferences & Talks" (by decide),
        cvSectionLines_filter_other cvs "Teaching & Mentoring" "Academic Service" (by decide),
        cvSectionLines_filter_other cvs "Teaching & Mentoring" "Proposal Writing" (by decide),
        cvSectionLines_filter_other cvs "Teaching & Mentoring" "Patents" (by decide)]
      simp [List.append_assoc]
  · refine ⟨preambleLines ++ headerLines ++
        educationSection education ++
        cvSectionLines (some cvs) "Research Experience" ++
        honorsSection honors ++
        cvSectionLines (some cvs) "Teaching & Mentoring",
      cvSectionLines (some cvs) "Academic Service" ++
        cvSectionLines (some cvs) "Proposal Writing" ++
        cvSectionLines (some cvs) "Patents" ++
        selectedSection pubs now ++
        otherSection pubs ++
        ["\\end\x7bdocument\x7d"], ?_, ?_⟩
    · simp [generate_latex_cv, List.append_assoc]
    · simp only [generate_latex_cv]
      rw [cvSectionLines_filter_self cvs "Conferences & Talks",
        cvSectionLines_filter_other cvs "Conferences & Talks" "Research Experience" (by decide),
        cvSectionLines_filter_other cvs "Conferences & Talks" "Teaching & Mentoring" (by decide),
        cvSectionLines_filter_other cvs "Conferences & Talks" "Academic Service" (by decide),
        cvSectionLines_filter_other cvs "Conferences & Talks" "Proposal Writing" (by decide),
        cvSectionLines_filter_other cvs "Conferences & Talks" "Patents" (by decide)]
      simp [List.append_assoc]
  · refine ⟨preambleLines ++ headerLines ++
        educationSection education ++
        cvSectionLines (some cvs) "Research Experience" ++
        honorsSection honors ++
        cvSectionLines (some cvs) "Teaching & Mentoring" ++
        cvSectionLines (some cvs) "Conferences & Talks",
      cvSectionLines (some cvs) "Proposal Writing" ++
        cvSectionLines (some cvs) "Patents" ++
        selectedSection pubs now ++
        otherSection pubs ++
        ["\\end\x7bdocument\x7d"], ?_, ?_⟩
    · simp [generate_latex_cv, List.append_assoc]
    · simp only [generate_latex_cv]
      rw [cvSectionLines_filter_self cvs "Academic Service",
        cvSectionLines_filter_other cvs "Academic Service" "Research Experience" (by decide),
        cvSectionLines_filter_other cvs "Academic Service" "Teaching & Mentoring" (by decide),
        cvSectionLines_filter_other cvs "Academic Service" "Conferences & Talks" (by decide),
        cvSectionLines_filter_other cvs "Academic Service" "Proposal Writing" (by decide),
        cvSectionLines_filter_other cvs "Academic Service" "Patents" (by decide)]
      simp [List.append_assoc]
  · refine ⟨preambleLines ++ headerLines ++
        educationSection education ++
        cvSectionLines (some cvs) "Research Experience" ++
        honorsSection honors ++
        cvSectionLines (some cvs) "Teaching & Mentoring" ++
        cvSectionLines (some cvs) "Conferences & Talks" ++
        cvSectionLines (some cvs) "Academic Service",
      cvSectionLines (some cvs) "Patents" ++
        selectedSection pubs now ++
        otherSection pubs ++
        ["\\end\x7bdocument\x7d"], ?_, ?_⟩
    · simp [generate_latex_cv, List.append_assoc]
    · simp only [generate_latex_cv]
      rw [cvSectionLines_filter_self cvs "Proposal Writing",
        cvSectionLines_filter_other cvs "Proposal Writing" "Research Experience" (by decide),
        cvSectionLines_filter_other cvs "Proposal Writing" "Teaching & Mentoring" (by decide),
        cvSectionLines_filter_other cvs "Proposal Writing" "Conferences & Talks" (by decide),
        cvSectionLines_filter_other cvs "Proposal Writing" "Academic Service" (by decide),
        cvSectionLines_filter_other cvs "Proposal Writing" "Patents" (by decide)]
      simp [List.append_assoc]
  · refine ⟨preambleLines ++ headerLines ++
        educationSection education ++
        cvSectionLines (some cvs) "Research Experience" ++
        honorsSection honors ++
        cvSectionLines (some cvs) "Teaching & Mentoring" ++
        cvSectionLines (some cvs) "Conferences & Talks" ++
        cvSectionLines (some cvs) "Academic Service" ++
        cvSectionLines (some cvs) "Proposal Writing",
      selectedSection pubs now ++
        otherSection pubs ++
        ["\\end\x7bdocument\x7d"], ?_, ?_⟩
    · simp [generate_latex_cv, List.append_assoc]
    · simp only [generate_latex_cv]
      rw [cvSectionLines_filter_self cvs "Patents",
        cvSectionLines_filter_other cvs "Patents" "Research Experience" (by decide),
        cvSectionLines_filter_other cvs "Patents" "Teaching & Mentoring" (by decide),
        cvSectionLines_filter_other cvs "Patents" "Conferences & Talks" (by decide),
        cvSectionLines_filter_other cvs "Patents" "Academic Service" (by decide),
        cvSectionLines_filter_other cvs "Patents" "Proposal Writing" (by decide)]
      simp [List.append_assoc]

/-- Witness for C9: with an empty CV-only collection (hence no "Patents"
record), the Patents section is omitted and the document decomposes. -/
theorem c9_witness :
    "Patents" ∈ cvSectionNames ∧
    (get_cv_section
        (some (([] : List CVSection).filter (fun it => !(it.Section == "Patents"))))
        "Patents" = none ∧
     cvSectionLines
        (some (([] : List CVSection).filter (fun it => !(it.Section == "Patents"))))
        "Patents" = [] ∧
     ∃ pre post,
       generate_latex_cv [] [] [] (some ([] : List CVSection)) "" =
         pre ++ cvSectionLines (some ([] : List CVSection)) "Patents" ++ post ∧
       generate_latex_cv [] [] []
           (some (([] : List CVSection).filter (fun it => !(it.Section == "Patents"))))
           "" = pre ++ post) :=
  ⟨by decide, c9_absent_section_omitted [] [] [] [] "" "Patents" (by decide)⟩
